import Mathlib

/-!
Shallow embedding of `src/lib.rs` (a wgpu triangle renderer): the vertex
data model and its GPU buffer layout, the `State` struct with its `new`,
`resize`, `input`, `update` and `render` methods, and the `run` event loop.

GPU side effects (surface configuration, pipeline creation, command
recording, submission, presentation) are modelled as an explicit trace of
`GpuEvent`s emitted by each operation; diagnostic prints are a trace of
`LogEvent`s.  External nondeterminism (the window's initial inner size, the
list of supported surface formats, the outcome of each frame acquisition,
and the stream of window events) is passed in as input.  `f32` vertex and
color components are modelled as exact rationals: the program only stores
the literals and never computes with them.
-/

/-- Model of `wgpu::TextureFormat`: opaque pixel format handle (the program never
inspects it, only copies it from the surface's supported list into the
configuration and the pipeline descriptor). -/
abbrev TextureFormat := Nat

/-- Model of `winit::dpi::PhysicalSize<u32>`. -/
structure PhysicalSize where
  width : Nat
  height : Nat
deriving DecidableEq, Repr

/-- Model of `wgpu::TextureUsages` as used here (only `RENDER_ATTACHMENT`). -/
inductive TextureUsages
  | RENDER_ATTACHMENT
deriving DecidableEq, Repr

/-- Model of `wgpu::PresentMode` as used here (only `Fifo`, i.e. vsync). -/
inductive PresentMode
  | Fifo
deriving DecidableEq, Repr

/-- Model of `wgpu::SurfaceConfiguration` (lib.rs lines 82-88). -/
structure SurfaceConfiguration where
  usage : TextureUsages
  format : TextureFormat
  width : Nat
  height : Nat
  present_mode : PresentMode
deriving DecidableEq, Repr

/-- Model of `wgpu::Color` (the clear color literal of the render pass). -/
structure Color where
  r : ℚ
  g : ℚ
  b : ℚ
  a : ℚ
deriving DecidableEq, Repr

/-- Model of `struct Vertex { color: [f32; 3], position: [f32; 3] }` (lib.rs lines
9-14): note the source declares `color` first and `position` second. -/
structure Vertex where
  color : ℚ × ℚ × ℚ
  position : ℚ × ℚ × ℚ
deriving DecidableEq, Repr

/-- Model of `const VERTICES` (lib.rs lines 37-42). -/
def VERTICES : List Vertex :=
  [ { position := (0, 1/2, 0), color := (1, 0, 0) },
    { position := (-(1/2), -(1/2), 0), color := (0, 1, 0) },
    { position := (1/2, -(1/2), 0), color := (0, 0, 1) } ]

/-- Model of `std::mem::size_of::<f32>()` in bytes. -/
def size_of_f32 : Nat := 4

/-- Model of `std::mem::size_of::<[f32; 3]>()` in bytes. -/
def size_of_f32x3 : Nat := 3 * size_of_f32

/-- The `repr(C)` field list of `Vertex` in declaration order, with each
field's size in bytes: `color: [f32; 3]` first, then `position: [f32; 3]`
(lib.rs lines 11-14). -/
def vertexFields : List (String × Nat) :=
  [("color", size_of_f32x3), ("position", size_of_f32x3)]

/-- Byte offset of a named field in a `repr(C)` struct described by its
declaration-order field list.  All fields of `Vertex` are 4-byte aligned
`[f32; 3]`s, so `repr(C)` inserts no padding and each field starts where
the previous one ends. -/
def reprCOffset : List (String × Nat) → String → Option Nat
  | [], _ => none
  | (n, sz) :: rest, f =>
    if f = n then some 0 else (reprCOffset rest f).map (· + sz)

/-- Model of `std::mem::size_of::<Vertex>()`: sum of the field sizes (no padding). -/
def size_of_Vertex : Nat := (vertexFields.map Prod.snd).sum

/-- Model of `wgpu::VertexFormat` as used here. -/
inductive VertexFormat
  | Float32x3
deriving DecidableEq, Repr

/-- Model of `wgpu::VertexAttribute`. -/
structure VertexAttribute where
  offset : Nat
  shader_location : Nat
  format : VertexFormat
deriving DecidableEq, Repr

/-- Model of `wgpu::VertexStepMode` as used here. -/
inductive VertexStepMode
  | Vertex
deriving DecidableEq, Repr

/-- Model of `wgpu::VertexBufferLayout`. -/
structure VertexBufferLayout where
  array_stride : Nat
  step_mode : VertexStepMode
  attributes : List VertexAttribute
deriving DecidableEq, Repr

/-- Model of `Vertex::desc()` (lib.rs lines 17-34). -/
def Vertex.desc : VertexBufferLayout :=
  { array_stride := size_of_Vertex,
    step_mode := .Vertex,
    attributes :=
      [ { offset := 0, shader_location := 0, format := .Float32x3 },
        { offset := size_of_f32x3, shader_location := 1, format := .Float32x3 } ] }

/-- Opaque handle: `wgpu::Surface`. -/
structure Surface where
deriving DecidableEq, Repr

/-- Opaque handle: `wgpu::Device`. -/
structure Device where
deriving DecidableEq, Repr

/-- Opaque handle: `wgpu::Queue`. -/
structure Queue where
deriving DecidableEq, Repr

/-- Model of `wgpu::RenderPipeline`: of the immutable pipeline descriptor we keep the
one datum the claims are about, the single color target's format
(lib.rs line 117). -/
structure RenderPipeline where
  color_target_format : TextureFormat
deriving DecidableEq, Repr

/-- Model of `wgpu::Buffer` created by `create_buffer_init`: modelled by the vertex
data uploaded into it. -/
structure Buffer where
  contents : List Vertex
deriving DecidableEq, Repr

/-- Model of `wgpu::SurfaceTexture` acquired by `get_current_texture`. -/
structure SurfaceTexture where
deriving DecidableEq, Repr

/-- Model of `wgpu::SurfaceError`. -/
inductive SurfaceError
  | Timeout
  | Outdated
  | Lost
  | OutOfMemory
deriving DecidableEq, Repr

/-- Observable GPU-side effects, in program order. -/
inductive GpuEvent
  | configureSurface (config : SurfaceConfiguration)
  | createShaderModule
  | createPipelineLayout
  | createPipeline (color_target_format : TextureFormat)
  | createBuffer (contents : List Vertex)
  | createView
  | createCommandEncoder
  | beginRenderPass (clear : Color)
  | setPipeline (color_target_format : TextureFormat)
  | setVertexBuffer (slot : Nat) (contents : List Vertex)
  | draw (vertex_start vertex_end instance_start instance_end : Nat)
  | submit
  | present
deriving DecidableEq, Repr

/-- Observable diagnostic prints. -/
inductive LogEvent
  | cursorPos (x y : ℚ)
  | surfaceErr (e : SurfaceError)
deriving DecidableEq, Repr

/-- Model of `struct State` (lib.rs lines 44-53). -/
structure State where
  surface : Surface
  device : Device
  queue : Queue
  config : SurfaceConfiguration
  size : PhysicalSize
  render_pipeline : RenderPipeline
  vertex_buffer : Buffer
  num_vertices : Nat
deriving DecidableEq, Repr

/-- Model of `State::new` (lib.rs lines 57-165).  Inputs from the environment: the
window's inner size and the surface's supported format list (the source
takes `get_supported_formats(..)[0]`, panicking on an empty list, modelled
as `none`; adapter and device acquisition are `unwrap`ped external calls
carrying no data we track).  Returns the initial state and the trace of GPU
calls made during construction, in source order: configure the surface,
create the shader module, the pipeline layout, the render pipeline (whose
single color target uses `config.format`), and the vertex buffer. -/
def State.new (size : PhysicalSize) (supported_formats : List TextureFormat) :
    Option (State × List GpuEvent) :=
  match supported_formats with
  | [] => none
  | fmt :: _ =>
    let config : SurfaceConfiguration :=
      { usage := .RENDER_ATTACHMENT
        format := fmt
        width := size.width
        height := size.height
        present_mode := .Fifo }
    some
      ( { surface := {}
          device := {}
          queue := {}
          config := config
          size := size
          render_pipeline := { color_target_format := config.format }
          vertex_buffer := { contents := VERTICES }
          num_vertices := VERTICES.length },
        [ .configureSurface config,
          .createShaderModule,
          .createPipelineLayout,
          .createPipeline config.format,
          .createBuffer VERTICES ] )

/-- Model of `State::resize` (lib.rs lines 167-174). -/
def State.resize (s : State) (new_size : PhysicalSize) :
    State × List GpuEvent :=
  if 0 < new_size.width ∧ 0 < new_size.height then
    let config : SurfaceConfiguration :=
      { s.config with width := new_size.width, height := new_size.height }
    ({ s with size := new_size, config := config }, [.configureSurface config])
  else
    (s, [])

/-- Model of `State::input` (lib.rs lines 176-178): always `false`. -/
def State.input (_s : State) : Bool := false

/-- Model of `State::update` (lib.rs lines 180-182): no-op. -/
def State.update (s : State) : State := s

/-- Model of `State::render` (lib.rs lines 184-222).  The acquisition outcome of
`surface.get_current_texture()` is environment input; `?` returns the error
before the command encoder is created, so the error branch records
nothing.  On success: create the view and encoder, record one render pass
clearing to (0.1, 0.2, 0.3, 1.0), bind the pipeline and the vertex buffer
at slot 0, draw `0..num_vertices` vertices and `0..1` instances, submit,
present. -/
def State.render (s : State)
    (acquired : Except SurfaceError SurfaceTexture) :
    State × Except SurfaceError Unit × List GpuEvent :=
  match acquired with
  | .error e => (s, .error e, [])
  | .ok _output =>
    (s, .ok (),
      [ .createView,
        .createCommandEncoder,
        .beginRenderPass { r := 1/10, g := 2/10, b := 3/10, a := 1 },
        .setPipeline s.render_pipeline.color_target_format,
        .setVertexBuffer 0 s.vertex_buffer.contents,
        .draw 0 s.num_vertices 0 1,
        .submit,
        .present ] )

/-- Model of `winit::event_loop::ControlFlow` as used here. -/
inductive ControlFlow
  | Poll
  | Exit
deriving DecidableEq, Repr

instance {ε α : Type} [DecidableEq ε] [DecidableEq α] :
    DecidableEq (Except ε α) := fun a b =>
  match a, b with
  | .error e₁, .error e₂ =>
    if h : e₁ = e₂ then .isTrue (by rw [h])
    else .isFalse (fun hc => h (by injection hc))
  | .ok t₁, .ok t₂ =>
    if h : t₁ = t₂ then .isTrue (by rw [h])
    else .isFalse (fun hc => h (by injection hc))
  | .error _, .ok _ => .isFalse (fun hc => Except.noConfusion hc)
  | .ok _, .error _ => .isFalse (fun hc => Except.noConfusion hc)

/-- The window/loop events the `run` closure matches on (lib.rs lines
232-279), restricted to events addressed to this window (the source
discards events with a foreign `window_id`; those behave like `Other`).
A `RedrawRequested` carries the environment's acquisition outcome for that
frame. -/
inductive WinEvent
  | CloseRequested
  | EscapePressed
  | Resized (physical_size : PhysicalSize)
  | ScaleFactorChanged (new_inner_size : PhysicalSize)
  | CursorMoved (x y : ℚ)
  | OtherWindowEvent
  | RedrawRequested (acquired : Except SurfaceError SurfaceTexture)
  | MainEventsCleared
  | Other
deriving DecidableEq, Repr

/-- Result of one loop iteration (or of a whole run): the state, the
control flow, and the GPU / log traces emitted. -/
structure StepResult where
  state : State
  control_flow : ControlFlow
  gpu : List GpuEvent
  logs : List LogEvent
deriving DecidableEq, Repr

/-- The `WindowEvent` match arm (lib.rs lines 238-259), entered only when
`state.input(event)` returned `false`. -/
def windowEventStep (s : State) (cf : ControlFlow) (event : WinEvent) :
    StepResult :=
  match event with
  | .CloseRequested => ⟨s, .Exit, [], []⟩
  | .EscapePressed => ⟨s, .Exit, [], []⟩
  | .Resized physical_size =>
    let r := s.resize physical_size
    ⟨r.1, cf, r.2, []⟩
  | .ScaleFactorChanged new_inner_size =>
    let r := s.resize new_inner_size
    ⟨r.1, cf, r.2, []⟩
  | .CursorMoved x y => ⟨s, cf, [], [.cursorPos x y]⟩
  | _ => ⟨s, cf, [], []⟩

/-- One iteration of the `event_loop.run` closure (lib.rs lines 232-279). -/
def runStep (s : State) (cf : ControlFlow) (event : WinEvent) : StepResult :=
  match event with
  | .RedrawRequested acquired =>
    let s₀ := s.update
    match s₀.render acquired with
    | (s₁, .ok _, tr) => ⟨s₁, cf, tr, []⟩
    | (s₁, .error .Lost, tr) =>
      let r := s₁.resize s₁.size
      ⟨r.1, cf, tr ++ r.2, []⟩
    | (s₁, .error .OutOfMemory, tr) => ⟨s₁, .Exit, tr, []⟩
    | (s₁, .error e, tr) => ⟨s₁, cf, tr, [.surfaceErr e]⟩
  | .MainEventsCleared => ⟨s, cf, [], []⟩
  | .Other => ⟨s, cf, [], []⟩
  | windowEvent =>
    if s.input then ⟨s, cf, [], []⟩
    else windowEventStep s cf windowEvent

/-- The event loop: process events in order, stopping (as winit does) once
`ControlFlow::Exit` has been set. -/
def runLoop (s : State) (cf : ControlFlow) :
    List WinEvent → StepResult
  | [] => ⟨s, cf, [], []⟩
  | event :: rest =>
    match cf with
    | .Exit => ⟨s, .Exit, [], []⟩
    | .Poll =>
      let r := runStep s cf event
      let r' := runLoop r.state r.control_flow rest
      ⟨r'.state, r'.control_flow, r.gpu ++ r'.gpu, r.logs ++ r'.logs⟩

/-- Model of `run` (lib.rs lines 225-281): build the initial state from the window's
size and the supported formats, then drive the event loop; the program's
GPU trace is `State::new`'s trace followed by the loop's. -/
def run (initial_size : PhysicalSize) (supported_formats : List TextureFormat)
    (events : List WinEvent) : Option StepResult :=
  match State.new initial_size supported_formats with
  | none => none
  | some (s, tr₀) =>
    let r := runLoop s .Poll events
    some ⟨r.state, r.control_flow, tr₀ ++ r.gpu, r.logs⟩

/-- A sequence of direct `resize` calls, with the concatenated trace. -/
def resizeAll (s : State) : List PhysicalSize → State × List GpuEvent
  | [] => (s, [])
  | sz :: rest =>
    let r := s.resize sz
    let r' := resizeAll r.1 rest
    (r'.1, r.2 ++ r'.2)

/-- Is this event a surface (re)configuration? -/
def isConfigureSurface : GpuEvent → Bool
  | .configureSurface _ => true
  | _ => false

/-- Is this event a render-pipeline creation? -/
def isCreatePipeline : GpuEvent → Bool
  | .createPipeline _ => true
  | _ => false

/-- Is this event a draw call? -/
def isDraw : GpuEvent → Bool
  | .draw _ _ _ _ => true
  | _ => false

/-- Is this event a queue submission? -/
def isSubmit : GpuEvent → Bool
  | .submit => true
  | _ => false

/-- Is this event a presentation? -/
def isPresent : GpuEvent → Bool
  | .present => true
  | _ => false

/-- Does this event configure the surface with a zero dimension? -/
def configuresZeroSized : GpuEvent → Bool
  | .configureSurface config => config.width = 0 || config.height = 0
  | _ => false

/-! ## Helper lemmas -/

/-- A resize with both dimensions positive stores the new size, overwrites
the configuration's dimensions and reconfigures the surface once. -/
theorem resize_pos_eq (s : State) (sz : PhysicalSize)
    (hw : 0 < sz.width) (hh : 0 < sz.height) :
    s.resize sz =
      ({ s with size := sz,
                config := { s.config with width := sz.width, height := sz.height } },
       [.configureSurface { s.config with width := sz.width, height := sz.height }]) := by
  simp [State.resize, hw, hh]

/-- The method `resize` never touches the handles, the pipeline, the vertex buffer or
the vertex count. -/
theorem resize_immutable_fields (s : State) (sz : PhysicalSize) :
    (s.resize sz).1.surface = s.surface ∧
    (s.resize sz).1.device = s.device ∧
    (s.resize sz).1.queue = s.queue ∧
    (s.resize sz).1.render_pipeline = s.render_pipeline ∧
    (s.resize sz).1.vertex_buffer = s.vertex_buffer ∧
    (s.resize sz).1.num_vertices = s.num_vertices := by
  unfold State.resize
  split <;> simp

/-- The method `render` returns its state unchanged on every acquisition outcome. -/
theorem render_state_eq (s : State)
    (acquired : Except SurfaceError SurfaceTexture) :
    (s.render acquired).1 = s := by
  cases acquired <;> simp [State.render]

/-- An explicit form of a test state used to instantiate universally
quantified theorems at concrete inputs. -/
def testState : State :=
  { surface := {}
    device := {}
    queue := {}
    config := { usage := .RENDER_ATTACHMENT, format := 0, width := 800,
                height := 600, present_mode := .Fifo }
    size := { width := 800, height := 600 }
    render_pipeline := { color_target_format := 0 }
    vertex_buffer := { contents := VERTICES }
    num_vertices := 3 }

/-! ## C2 -/

/-- C2: a resize where the new width or the new height is zero is a no-op:
the state (stored size and stored surface configuration included) is
returned unchanged and no surface reconfiguration is recorded. -/
theorem resize_zero_is_noop (s : State) (new_size : PhysicalSize)
    (h : new_size.width = 0 ∨ new_size.height = 0) :
    s.resize new_size = (s, []) := by
  rcases h with h | h <;> simp [State.resize, h]

/-- Witness for C2 at a concrete state and size 0×300. -/
theorem resize_zero_is_noop_witness :
    ((PhysicalSize.mk 0 300).width = 0 ∨ (PhysicalSize.mk 0 300).height = 0) ∧
    testState.resize (PhysicalSize.mk 0 300) = (testState, []) :=
  ⟨Or.inl rfl, resize_zero_is_noop testState (PhysicalSize.mk 0 300) (Or.inl rfl)⟩

/-! ## C10 -/

/-- C10: `render` mutates no field of `State` on any outcome, and on an
acquisition error it returns that error before creating the command
encoder, recording and submitting nothing. -/
theorem render_mutates_nothing (s : State)
    (acquired : Except SurfaceError SurfaceTexture) (e : SurfaceError) :
    (s.render acquired).1.surface = s.surface ∧
    (s.render acquired).1.device = s.device ∧
    (s.render acquired).1.queue = s.queue ∧
    (s.render acquired).1.config = s.config ∧
    (s.render acquired).1.size = s.size ∧
    (s.render acquired).1.render_pipeline = s.render_pipeline ∧
    (s.render acquired).1.vertex_buffer = s.vertex_buffer ∧
    (s.render acquired).1.num_vertices = s.num_vertices ∧
    s.render (.error e) = (s, .error e, []) := by
  cases acquired <;> simp [State.render]

/-! ## C1 -/

/-- After a nonempty sequence of positive resizes, the stored configuration
dimensions are those of the last resize. -/
theorem resizeAll_dims (s : State) (sizes : List PhysicalSize)
    (hne : sizes ≠ [])
    (hpos : ∀ sz ∈ sizes, 0 < sz.width ∧ 0 < sz.height) :
    (resizeAll s sizes).1.config.width = (sizes.getLast hne).width ∧
    (resizeAll s sizes).1.config.height = (sizes.getLast hne).height := by
  induction sizes generalizing s with
  | nil => exact absurd rfl hne
  | cons sz rest ih =>
    obtain ⟨hw, hh⟩ := hpos sz (List.mem_cons_self _ _)
    have hres := resize_pos_eq s sz hw hh
    cases rest with
    | nil =>
      simp [resizeAll, hres, List.getLast]
    | cons sz₂ rest₂ =>
      have hpos₂ : ∀ x ∈ sz₂ :: rest₂, 0 < x.width ∧ 0 < x.height :=
        fun x hx => hpos x (List.mem_cons_of_mem _ hx)
      have hne₂ : sz₂ :: rest₂ ≠ [] := by simp
      have hih := ih { s with size := sz, config := { s.config with width := sz.width, height := sz.height } } hne₂ hpos₂
      simp only [resizeAll, hres, List.getLast_cons]
      exact ⟨hih.1, hih.2⟩

/-- A sequence of positive resizes emits one surface reconfiguration per
resize, each carrying that resize's dimensions. -/
theorem resizeAll_trace (s : State) (sizes : List PhysicalSize)
    (hpos : ∀ sz ∈ sizes, 0 < sz.width ∧ 0 < sz.height) :
    (resizeAll s sizes).2 =
      sizes.map (fun sz => GpuEvent.configureSurface
        { s.config with width := sz.width, height := sz.height }) := by
  induction sizes generalizing s with
  | nil => simp [resizeAll]
  | cons sz rest ih =>
    obtain ⟨hw, hh⟩ := hpos sz (List.mem_cons_self _ _)
    have hres := resize_pos_eq s sz hw hh
    have hrest := ih { s with size := sz, config := { s.config with width := sz.width, height := sz.height } }
      (fun x hx => hpos x (List.mem_cons_of_mem _ hx))
    simp only [resizeAll, hres, List.map_cons]
    simp [hrest]

/-- C1: over any nonempty sequence of resizes with positive dimensions, the
stored configuration's width and height end up equal to the last resize's
dimensions, and each resize emits exactly one surface reconfiguration
carrying that resize's dimensions. -/
theorem resize_sequence_tracks_last (s : State) (sizes : List PhysicalSize)
    (hne : sizes ≠ [])
    (hpos : ∀ sz ∈ sizes, 0 < sz.width ∧ 0 < sz.height) :
    (resizeAll s sizes).1.config.width = (sizes.getLast hne).width ∧
    (resizeAll s sizes).1.config.height = (sizes.getLast hne).height ∧
    (resizeAll s sizes).2 =
      sizes.map (fun sz => GpuEvent.configureSurface
        { s.config with width := sz.width, height := sz.height }) :=
  ⟨(resizeAll_dims s sizes hne hpos).1, (resizeAll_dims s sizes hne hpos).2,
   resizeAll_trace s sizes hpos⟩

/-- Witness for C1 at a concrete state and the sequence 800×600, 400×300. -/
theorem resize_sequence_tracks_last_witness :
    (∀ sz ∈ [PhysicalSize.mk 800 600, PhysicalSize.mk 400 300],
        0 < sz.width ∧ 0 < sz.height) ∧
    (resizeAll testState [PhysicalSize.mk 800 600, PhysicalSize.mk 400 300]).1.config.width =
      (([PhysicalSize.mk 800 600, PhysicalSize.mk 400 300]).getLast (by decide)).width ∧
    (resizeAll testState [PhysicalSize.mk 800 600, PhysicalSize.mk 400 300]).1.config.height =
      (([PhysicalSize.mk 800 600, PhysicalSize.mk 400 300]).getLast (by decide)).height :=
  ⟨by decide,
   (resize_sequence_tracks_last testState _ (by decide) (by decide)).1,
   (resize_sequence_tracks_last testState _ (by decide) (by decide)).2.1⟩

/-! ## C4 -/

/-- C4 counterexample: in the source's `Vertex`, `color` is the first
declared field, so under `repr(C)` the `position` field sits at byte
offset 12 (the size of `[f32; 3]`), not at byte offset 0. -/
theorem vertex_position_not_at_offset_zero :
    reprCOffset vertexFields "position" = some size_of_f32x3 ∧
    reprCOffset vertexFields "position" ≠ some 0 ∧
    reprCOffset vertexFields "color" = some 0 := by decide

/-- C4 amended: each `Vertex` is laid out with the `color` field (3×f32)
first, at byte offset 0, read by the attribute at shader input location 0,
followed by the `position` field (3×f32) at byte offset 12, read by the
attribute at shader input location 1; the stride equals the size of one
`Vertex` (24 bytes). -/
theorem vertex_layout_color_first :
    reprCOffset vertexFields "color" = some 0 ∧
    reprCOffset vertexFields "position" = some size_of_f32x3 ∧
    Vertex.desc.attributes =
      [ { offset := 0, shader_location := 0, format := .Float32x3 },
        { offset := size_of_f32x3, shader_location := 1, format := .Float32x3 } ] ∧
    Vertex.desc.array_stride = size_of_Vertex ∧
    size_of_Vertex = 24 := by decide

/-! ## C6 -/

/-- C6: when acquisition fails with `Lost` (and the stored size is a valid,
positive window size), the loop iteration performs exactly one surface
reconfiguration, using the current known size; it does not terminate
(control flow stays `Poll`), records no draw, submit or present (the frame
is skipped); and the next iteration with a successful acquisition performs
no further reconfiguration. -/
theorem lost_triggers_one_reconfigure (s : State) (t : SurfaceTexture)
    (hw : 0 < s.size.width) (hh : 0 < s.size.height) :
    runStep s .Poll (.RedrawRequested (.error .Lost)) =
      ⟨{ s with size := s.size, config := { s.config with width := s.size.width, height := s.size.height } },
        .Poll,
        [.configureSurface { s.config with width := s.size.width, height := s.size.height }],
        []⟩ ∧
    (runStep s .Poll (.RedrawRequested (.error .Lost))).gpu.countP isConfigureSurface = 1 ∧
    (runStep s .Poll (.RedrawRequested (.error .Lost))).gpu.countP isDraw = 0 ∧
    (runStep s .Poll (.RedrawRequested (.error .Lost))).gpu.countP isSubmit = 0 ∧
    (runStep s .Poll (.RedrawRequested (.error .Lost))).gpu.countP isPresent = 0 ∧
    (runStep (runStep s .Poll (.RedrawRequested (.error .Lost))).state .Poll
        (.RedrawRequested (.ok t))).gpu.countP isConfigureSurface = 0 := by
  have hres := resize_pos_eq s s.size hw hh
  have hstep : runStep s .Poll (.RedrawRequested (.error .Lost)) =
      ⟨{ s with size := s.size, config := { s.config with width := s.size.width, height := s.size.height } },
        .Poll,
        [.configureSurface { s.config with width := s.size.width, height := s.size.height }],
        []⟩ := by
    simp [runStep, State.update, State.render, hres]
  refine ⟨hstep, ?_, ?_, ?_, ?_, ?_⟩ <;>
    simp [hstep, hres, runStep, State.update, State.render, isConfigureSurface, isDraw,
      isSubmit, isPresent, List.countP_cons, List.countP_nil]

/-- Witness for C6 at a concrete 800×600 state. -/
theorem lost_triggers_one_reconfigure_witness :
    (0 < testState.size.width ∧ 0 < testState.size.height) ∧
    (runStep testState .Poll (.RedrawRequested (.error .Lost))).gpu.countP
      isConfigureSurface = 1 ∧
    (runStep (runStep testState .Poll (.RedrawRequested (.error .Lost))).state .Poll
        (.RedrawRequested (.ok ⟨⟩))).gpu.countP isConfigureSurface = 0 :=
  ⟨⟨by decide, by decide⟩,
   (lost_triggers_one_reconfigure testState ⟨⟩ (by decide) (by decide)).2.1,
   (lost_triggers_one_reconfigure testState ⟨⟩ (by decide) (by decide)).2.2.2.2.2⟩

/-! ## C7 -/

/-- C7: when acquisition fails with `OutOfMemory`, the run loop terminates
(control flow is set to `Exit` and no later event is processed), the state
is unchanged, and no GPU work at all — in particular no recording and no
submission — happens from that failure on. -/
theorem oom_terminates_run_loop (s : State) (rest : List WinEvent) :
    runLoop s .Poll (.RedrawRequested (.error .OutOfMemory) :: rest) =
      ⟨s, .Exit, [], []⟩ := by
  have hstep : runStep s .Poll (.RedrawRequested (.error .OutOfMemory)) =
      ⟨s, .Exit, [], []⟩ := by
    simp [runStep, State.update, State.render]
  have hexit : runLoop s .Exit rest = ⟨s, .Exit, [], []⟩ := by
    cases rest <;> simp [runLoop]
  simp [runLoop, hstep, hexit]

/-! ## C8 -/

/-- C8: when acquisition fails with an error other than `Lost` or
`OutOfMemory` (i.e. `Outdated` or `Timeout`), the iteration only logs the
error: the state is unchanged (no reconfiguration), no GPU event is
recorded (no retry in the same tick), and control flow stays `Poll` (the
error does not cross the run-loop boundary). -/
theorem transient_error_skips_frame (s : State) (e : SurfaceError)
    (he : e = .Outdated ∨ e = .Timeout) :
    runStep s .Poll (.RedrawRequested (.error e)) =
      ⟨s, .Poll, [], [.surfaceErr e]⟩ := by
  rcases he with rfl | rfl <;> simp [runStep, State.update, State.render]

/-- Witness for C8 at a concrete state and the `Outdated` error. -/
theorem transient_error_skips_frame_witness :
    (SurfaceError.Outdated = SurfaceError.Outdated ∨
      SurfaceError.Outdated = SurfaceError.Timeout) ∧
    runStep testState .Poll (.RedrawRequested (.error .Outdated)) =
      ⟨testState, .Poll, [], [.surfaceErr .Outdated]⟩ :=
  ⟨Or.inl rfl, transient_error_skips_frame testState .Outdated (Or.inl rfl)⟩

/-! ## Reachability lemmas: the loop never touches handles, pipeline,
vertex buffer or vertex count, never rebuilds the pipeline, and only ever
reconfigures the surface with positive dimensions. -/

/-- One loop iteration leaves the handles, the pipeline, the vertex buffer
and the vertex count unchanged. -/
theorem runStep_immutable_fields (s : State) (cf : ControlFlow)
    (event : WinEvent) :
    (runStep s cf event).state.surface = s.surface ∧
    (runStep s cf event).state.device = s.device ∧
    (runStep s cf event).state.queue = s.queue ∧
    (runStep s cf event).state.render_pipeline = s.render_pipeline ∧
    (runStep s cf event).state.vertex_buffer = s.vertex_buffer ∧
    (runStep s cf event).state.num_vertices = s.num_vertices := by
  cases event with
  | RedrawRequested acq =>
    cases acq with
    | ok t => simp [runStep, State.update, State.render]
    | error err =>
      cases err <;>
        simp [runStep, State.update, State.render, resize_immutable_fields]
  | _ => simp [runStep, State.input, windowEventStep, resize_immutable_fields]

/-- The whole loop leaves the handles, the pipeline, the vertex buffer and
the vertex count unchanged. -/
theorem runLoop_immutable_fields (events : List WinEvent) (s : State)
    (cf : ControlFlow) :
    (runLoop s cf events).state.surface = s.surface ∧
    (runLoop s cf events).state.device = s.device ∧
    (runLoop s cf events).state.queue = s.queue ∧
    (runLoop s cf events).state.render_pipeline = s.render_pipeline ∧
    (runLoop s cf events).state.vertex_buffer = s.vertex_buffer ∧
    (runLoop s cf events).state.num_vertices = s.num_vertices := by
  induction events generalizing s cf with
  | nil => simp [runLoop]
  | cons ev rest ih =>
    cases cf with
    | Exit => simp [runLoop]
    | Poll =>
      have h₁ := runStep_immutable_fields s .Poll ev
      have h₂ := ih (runStep s .Poll ev).state (runStep s .Poll ev).control_flow
      simp only [runLoop]
      refine ⟨by simp, by simp, by simp, ?_, ?_, ?_⟩
      · exact h₂.2.2.2.1.trans h₁.2.2.2.1
      · exact h₂.2.2.2.2.1.trans h₁.2.2.2.2.1
      · exact h₂.2.2.2.2.2.trans h₁.2.2.2.2.2

/-- Every event in a `resize` trace is a surface reconfiguration with
positive dimensions (and in particular not a pipeline creation). -/
theorem resize_trace_events (s : State) (sz : PhysicalSize) (e : GpuEvent)
    (he : e ∈ (s.resize sz).2) :
    isCreatePipeline e = false ∧
      ∀ c, e = .configureSurface c → 0 < c.width ∧ 0 < c.height := by
  unfold State.resize at he
  by_cases h : 0 < sz.width ∧ 0 < sz.height
  · rw [if_pos h] at he
    simp only [List.mem_singleton] at he
    subst he
    refine ⟨rfl, fun c hc => ?_⟩
    injection hc with h₂
    subst h₂
    exact ⟨h.1, h.2⟩
  · rw [if_neg h] at he
    simp at he

/-- Every GPU event a loop iteration emits is neither a pipeline creation
nor a zero-sized surface reconfiguration. -/
theorem runStep_trace_events (s : State) (cf : ControlFlow)
    (event : WinEvent) (e : GpuEvent) (he : e ∈ (runStep s cf event).gpu) :
    isCreatePipeline e = false ∧
      ∀ c, e = .configureSurface c → 0 < c.width ∧ 0 < c.height := by
  cases event with
  | Resized sz =>
    refine resize_trace_events s sz e ?_
    simpa [runStep, State.input, windowEventStep] using he
  | ScaleFactorChanged sz =>
    refine resize_trace_events s sz e ?_
    simpa [runStep, State.input, windowEventStep] using he
  | RedrawRequested acq =>
    cases acq with
    | ok t =>
      simp only [runStep, State.update, State.render] at he
      simp only [List.mem_cons, List.not_mem_nil, or_false] at he
      rcases he with rfl | rfl | rfl | rfl | rfl | rfl | rfl | rfl <;>
        exact ⟨rfl, fun c hc => by simp at hc⟩
    | error err =>
      cases err with
      | Lost =>
        refine resize_trace_events s s.size e ?_
        simpa [runStep, State.update, State.render] using he
      | Timeout => simp [runStep, State.update, State.render] at he
      | Outdated => simp [runStep, State.update, State.render] at he
      | OutOfMemory => simp [runStep, State.update, State.render] at he
  | CloseRequested => simp [runStep, State.input, windowEventStep] at he
  | EscapePressed => simp [runStep, State.input, windowEventStep] at he
  | CursorMoved x y => simp [runStep, State.input, windowEventStep] at he
  | OtherWindowEvent => simp [runStep, State.input, windowEventStep] at he
  | MainEventsCleared => simp [runStep] at he
  | Other => simp [runStep] at he

/-- Every GPU event the whole loop emits is neither a pipeline creation nor
a zero-sized surface reconfiguration. -/
theorem runLoop_trace_events (events : List WinEvent) (s : State)
    (cf : ControlFlow) (e : GpuEvent) (he : e ∈ (runLoop s cf events).gpu) :
    isCreatePipeline e = false ∧
      ∀ c, e = .configureSurface c → 0 < c.width ∧ 0 < c.height := by
  induction events generalizing s cf with
  | nil => simp [runLoop] at he
  | cons ev rest ih =>
    cases cf with
    | Exit => simp [runLoop] at he
    | Poll =>
      simp only [runLoop] at he
      rw [List.mem_append] at he
      rcases he with he | he
      · exact runStep_trace_events s .Poll ev e he
      · exact ih _ _ he

/-- Concrete initial state and startup trace for an 800×600 window with one
supported format, used to instantiate theorems about reachable states. -/
def initPair : State × List GpuEvent :=
  (State.new ⟨800, 600⟩ [0]).getD (testState, [])

/-! ## C9 -/

/-- C9: `State::new`'s startup trace creates the render pipeline exactly
once, strictly after the first (and only) startup surface configuration,
with the pipeline's single color target format equal to the configured
format at that moment; and no loop iteration ever — in particular no
resize — creates a pipeline again. -/
theorem pipeline_built_once (initial_size : PhysicalSize)
    (supported_formats : List TextureFormat) (events : List WinEvent)
    (p : State × List GpuEvent)
    (hnew : State.new initial_size supported_formats = some p) :
    p.2 = [ .configureSurface p.1.config, .createShaderModule,
            .createPipelineLayout, .createPipeline p.1.config.format,
            .createBuffer VERTICES ] ∧
    p.1.render_pipeline.color_target_format = p.1.config.format ∧
    p.2.countP isCreatePipeline = 1 ∧
    (runLoop p.1 .Poll events).gpu.countP isCreatePipeline = 0 := by
  have hloop : (runLoop p.1 .Poll events).gpu.countP isCreatePipeline = 0 := by
    rw [List.countP_eq_zero]
    intro a ha
    simp [(runLoop_trace_events events p.1 .Poll a ha).1]
  cases supported_formats with
  | nil => simp [State.new] at hnew
  | cons fmt rest =>
    simp only [State.new] at hnew
    injection hnew with h
    subst h
    refine ⟨rfl, rfl, ?_, hloop⟩
    simp [List.countP_cons, isCreatePipeline]

/-- Witness for C9: 800×600 window, one format, then one resize event. -/
theorem pipeline_built_once_witness :
    State.new ⟨800, 600⟩ [0] = some initPair ∧
    initPair.2.countP isCreatePipeline = 1 ∧
    (runLoop initPair.1 .Poll [.Resized ⟨400, 300⟩]).gpu.countP
      isCreatePipeline = 0 :=
  ⟨rfl,
   (pipeline_built_once ⟨800, 600⟩ [0] [.Resized ⟨400, 300⟩] initPair rfl).2.2.1,
   (pipeline_built_once ⟨800, 600⟩ [0] [.Resized ⟨400, 300⟩] initPair rfl).2.2.2⟩

/-! ## C5 -/

/-- C5: from any reachable state (initial state of `State::new`, then any
sequence of loop events), a render with a successful acquisition leaves the
state unchanged and records exactly this trace: one render pass cleared to
(0.1, 0.2, 0.3, 1.0), the pipeline bound, the vertex buffer (holding the
fixed `VERTICES`) bound at slot 0, one draw of vertices `0..3` and
instances `0..1` — independent of the window size — then one submit and
one present. -/
theorem successful_render_is_one_triangle_frame (initial_size : PhysicalSize)
    (supported_formats : List TextureFormat) (events : List WinEvent)
    (p : State × List GpuEvent) (t : SurfaceTexture)
    (hnew : State.new initial_size supported_formats = some p) :
    (runLoop p.1 .Poll events).state.render (.ok t) =
      ((runLoop p.1 .Poll events).state, .ok (),
        [ .createView,
          .createCommandEncoder,
          .beginRenderPass { r := 1/10, g := 2/10, b := 3/10, a := 1 },
          .setPipeline
            (runLoop p.1 .Poll events).state.render_pipeline.color_target_format,
          .setVertexBuffer 0 VERTICES,
          .draw 0 3 0 1,
          .submit,
          .present ] ) := by
  cases supported_formats with
  | nil => simp [State.new] at hnew
  | cons fmt rest =>
    simp only [State.new] at hnew
    injection hnew with h
    subst h
    simp [State.render, runLoop_immutable_fields, VERTICES]

/-- Witness for C5: the initial 800×600 state, no further events. -/
theorem successful_render_witness :
    State.new ⟨800, 600⟩ [0] = some initPair ∧
    (runLoop initPair.1 .Poll []).state.render (.ok ⟨⟩) =
      ((runLoop initPair.1 .Poll []).state, .ok (),
        [ .createView,
          .createCommandEncoder,
          .beginRenderPass { r := 1/10, g := 2/10, b := 3/10, a := 1 },
          .setPipeline
            (runLoop initPair.1 .Poll []).state.render_pipeline.color_target_format,
          .setVertexBuffer 0 VERTICES,
          .draw 0 3 0 1,
          .submit,
          .present ] ) :=
  ⟨rfl, successful_render_is_one_triangle_frame ⟨800, 600⟩ [0] [] initPair ⟨⟩ rfl⟩

/-! ## C3 -/

/-- C3 counterexample: `State::new` has no zero-size guard, so a window
whose initial inner size is degenerate (here 0×600, e.g. a window created
minimized) makes the startup configuration zero-sized: the startup trace
contains a `configureSurface` with width 0. -/
theorem startup_configures_zero_sized :
    (State.new ⟨0, 600⟩ [0]).map (fun q => q.2.any configuresZeroSized) =
      some true := by rfl

/-- When the initial window size is positive, every surface configuration
in the startup trace of `State::new` has positive dimensions. -/
theorem new_trace_configures_pos (size : PhysicalSize)
    (supported_formats : List TextureFormat) (p : State × List GpuEvent)
    (hw : 0 < size.width) (hh : 0 < size.height)
    (hnew : State.new size supported_formats = some p) :
    ∀ c, GpuEvent.configureSurface c ∈ p.2 → 0 < c.width ∧ 0 < c.height := by
  cases supported_formats with
  | nil => simp [State.new] at hnew
  | cons fmt rest =>
    simp only [State.new] at hnew
    injection hnew with h
    subst h
    intro c hc
    simp only [List.mem_cons, List.not_mem_nil, or_false] at hc
    rcases hc with hc | hc | hc | hc | hc
    · injection hc with h₂
      subst h₂
      exact ⟨hw, hh⟩
    · exact absurd hc (by simp)
    · exact absurd hc (by simp)
    · exact absurd hc (by simp)
    · exact absurd hc (by simp)

/-- C3 amended: provided the window's initial inner size is positive in
both dimensions, every surface configuration the program ever issues — the
initial one in `State::new` and every later reconfiguration during the
event loop — has positive width and height. -/
theorem never_zero_sized_configuration (initial_size : PhysicalSize)
    (supported_formats : List TextureFormat) (events : List WinEvent)
    (r : StepResult)
    (hw : 0 < initial_size.width) (hh : 0 < initial_size.height)
    (hrun : run initial_size supported_formats events = some r) :
    ∀ config, GpuEvent.configureSurface config ∈ r.gpu →
      0 < config.width ∧ 0 < config.height := by
  unfold run at hrun
  cases hn : State.new initial_size supported_formats with
  | none => rw [hn] at hrun; simp at hrun
  | some q =>
    obtain ⟨s, tr₀⟩ := q
    rw [hn] at hrun
    injection hrun with h
    subst h
    intro config hc
    replace hc : GpuEvent.configureSurface config ∈
        tr₀ ++ (runLoop s .Poll events).gpu := hc
    rw [List.mem_append] at hc
    rcases hc with hc | hc
    · exact new_trace_configures_pos initial_size supported_formats (s, tr₀)
        hw hh hn config hc
    · exact (runLoop_trace_events events s .Poll _ hc).2 config rfl

/-- Events used by the C3 witness: a valid resize, a successful frame, a
degenerate resize, and a lost-surface frame. -/
def wEvents : List WinEvent :=
  [ .Resized ⟨400, 300⟩, .RedrawRequested (.ok ⟨⟩), .Resized ⟨0, 0⟩,
    .RedrawRequested (.error .Lost) ]

/-- The run result used by the C3 witness. -/
def wResult : StepResult :=
  (run ⟨800, 600⟩ [0] wEvents).getD ⟨testState, .Poll, [], []⟩

/-- Witness for the amended C3 on a concrete 800×600 run. -/
theorem never_zero_sized_configuration_witness :
    (0 < (PhysicalSize.mk 800 600).width ∧ 0 < (PhysicalSize.mk 800 600).height ∧
      run ⟨800, 600⟩ [0] wEvents = some wResult) ∧
    ∀ config, GpuEvent.configureSurface config ∈ wResult.gpu →
      0 < config.width ∧ 0 < config.height :=
  ⟨⟨by decide, by decide, rfl⟩,
   never_zero_sized_configuration ⟨800, 600⟩ [0] wEvents wResult
     (by decide) (by decide) rfl⟩
